import Mathlib

/-!
Verification of `cinna-graphrag/app.py`, a minimal FastAPI backend with two
routes: a health check (`GET /`, handler `root`) and a mock recommendation
endpoint (`POST /recommendations`, handler `recommend_movies`).

The Python handlers build and return plain dictionaries, so we embed their
values as a small JSON datatype: Python `dict`s become `Json.obj` (key order
is insertion order, as in Python), `str` becomes `Json.str`, `int` becomes
`Json.int`, `float` literals become `Json.num` over `Rat` (every numeric
literal in the source is a finite decimal), and `list`s become `Json.arr`.
-/

namespace Cinna

/-- JSON-like values, covering every shape appearing in `app.py`. -/
inductive Json where
  | str : String → Json
  | int : Int → Json
  | num : Rat → Json
  | arr : List Json → Json
  | obj : List (String × Json) → Json

/-- Field lookup on a JSON object (first binding wins, as in a Python dict,
whose keys are unique anyway). Returns `none` on non-objects. -/
def Json.getField : Json → String → Option Json
  | .obj fields, k => fields.lookup k
  | _, _ => none

/-- Decode a list of JSON values into a list of Lean strings; fails as soon
as one element is not a JSON string. -/
def strListOfJson : List Json → Option (List String)
  | [] => some []
  | Json.str s :: rest => (strListOfJson rest).map (s :: ·)
  | _ => none

/-- Decode a JSON value as a list of strings: it must be an array whose
elements are all strings. -/
def Json.asStringList : Json → Option (List String)
  | .arr xs => strListOfJson xs
  | _ => none

/-- The pydantic model `RecommendationRequest(BaseModel)` of `app.py`:
a single field `genres: List[str]`. -/
structure RecommendationRequest where
  genres : List String
deriving DecidableEq

/-- The hardcoded `movies` list built inside `recommend_movies` in `app.py`:
three dictionaries, transcribed field by field in source order. -/
def movies : List Json :=
  [ .obj
      [ ("id", .int 1),
        ("title", .str "Inception"),
        ("overview", .str "A thief enters dreams to steal secrets."),
        ("release_date", .str "2010-07-16"),
        ("poster_path", .str "/9gk7adHYeDvHkCSEqAvQNLV5Uge.jpg"),
        ("vote_average", .num 8.8) ],
    .obj
      [ ("id", .int 2),
        ("title", .str "Dune: Part Two"),
        ("overview", .str "Paul unites with the Fremen against Harkonnen."),
        ("release_date", .str "2024-03-01"),
        ("poster_path", .str "/1E5baAaEse26fej7uHcjOgEE2t2.jpg"),
        ("vote_average", .num 8.6) ],
    .obj
      [ ("id", .int 3),
        ("title", .str "Interstellar"),
        ("overview", .str "A crew travels through a wormhole for humanity."),
        ("release_date", .str "2014-11-07"),
        ("poster_path", .str "/gEU2QniE6E77NI6lCU6MxlNBvIx.jpg"),
        ("vote_average", .num 8.7) ] ]

/-- The handler `recommend_movies` of `app.py`: returns the dictionary
`{"query": request.genres, "response": movies}`. -/
def recommend_movies (request : RecommendationRequest) : Json :=
  .obj [ ("query", .arr (request.genres.map .str)),
         ("response", .arr movies) ]

/-- The handler `root` of `app.py`: returns the dictionary
`{"status": "Cinna GraphRAG backend is running!"}`. It takes no input, so we
model it as a function on `Unit`. -/
def root (_ : Unit) : Json :=
  .obj [("status", .str "Cinna GraphRAG backend is running!")]

/-- Modelled from the spec: the hosting framework (FastAPI with pydantic,
not part of this repository's source) validates the request body against
`RecommendationRequest` and rejects a body whose `genres` field is missing
or is not a list of strings with a client validation error; any body whose
`genres` field is a list of strings is accepted. -/
def parseRecommendationRequest (body : Json) : Except String RecommendationRequest :=
  match body.getField "genres" with
  | none => .error "field required: genres"
  | some g =>
    match g.asStringList with
    | none => .error "genres: value is not a valid list of strings"
    | some gs => .ok ⟨gs⟩

/-- The `POST /recommendations` route end to end: framework validation of the
body followed by the handler `recommend_movies`. -/
def handleRecommendations (body : Json) : Except String Json :=
  (parseRecommendationRequest body).map recommend_movies

/-- A JSON value has the MovieRecord shape when it is an object with exactly
the six fields of the source dictionaries, in source order, with `id` an
integer, `vote_average` a number and the rest strings. -/
def isMovieRecord : Json → Bool
  | .obj
      [ ("id", .int _),
        ("title", .str _),
        ("overview", .str _),
        ("release_date", .str _),
        ("poster_path", .str _),
        ("vote_average", .num _) ] => true
  | _ => false

/-- ISO-8601 calendar-date shape: exactly ten characters, hyphens at
(zero-based) indices 4 and 7, digits everywhere else. -/
def isISODate (s : String) : Bool :=
  s.data.length == 10 &&
    s.data.enum.all fun p =>
      if p.1 == 4 || p.1 == 7 then p.2 == '-' else p.2.isDigit

/-- The `id` field of a movie dictionary, when present with integer type. -/
def idOf (m : Json) : Option Int :=
  match m.getField "id" with
  | some (.int n) => some n
  | _ => none

/-- The `title` field of a movie dictionary, when present with string type. -/
def titleOf (m : Json) : Option String :=
  match m.getField "title" with
  | some (.str s) => some s
  | _ => none

/-- The `release_date` field of a movie dictionary, when present with string
type. -/
def releaseDateOf (m : Json) : Option String :=
  match m.getField "release_date" with
  | some (.str s) => some s
  | _ => none

/-- Decoding a list of JSON strings recovers the original strings. -/
theorem strListOfJson_map_str (gs : List String) :
    strListOfJson (gs.map Json.str) = some gs := by
  induction gs with
  | nil => rfl
  | cons s rest ih => simp [strListOfJson, ih]

/-- A successful string-list decode means the input was a list of JSON
strings. -/
theorem strListOfJson_eq_some (xs : List Json) (gs : List String)
    (h : strListOfJson xs = some gs) : xs = gs.map Json.str := by
  induction xs generalizing gs with
  | nil =>
    simp [strListOfJson] at h
    simp [← h]
  | cons x rest ih =>
    cases x with
    | str s =>
      simp [strListOfJson, Option.map_eq_some'] at h
      obtain ⟨gs', hgs', rfl⟩ := h
      simp [ih gs' hgs']
    | int n => simp [strListOfJson] at h
    | num q => simp [strListOfJson] at h
    | arr ys => simp [strListOfJson] at h
    | obj fs => simp [strListOfJson] at h

/-- `asStringList` succeeds exactly on JSON arrays of strings. -/
theorem asStringList_eq_some_iff (g : Json) (gs : List String) :
    g.asStringList = some gs ↔ g = .arr (gs.map Json.str) := by
  constructor
  · intro h
    cases g with
    | arr xs =>
      simp [Json.asStringList] at h
      simp [strListOfJson_eq_some xs gs h]
    | str s => simp [Json.asStringList] at h
    | int n => simp [Json.asStringList] at h
    | num q => simp [Json.asStringList] at h
    | obj fs => simp [Json.asStringList] at h
  · intro h
    subst h
    simp [Json.asStringList, strListOfJson_map_str]

/-- C1: for every structurally valid `RecommendationRequest` (any list of
genre strings, including the empty list), the `response` field of the value
returned by `recommend_movies` is the same fixed three-element list
`movies`, independent of the input genres. -/
theorem recommend_response_constant (request : RecommendationRequest) :
    (recommend_movies request).getField "response" = some (.arr movies) ∧
    movies.length = 3 :=
  ⟨rfl, rfl⟩

/-- C1 witness at the concrete request with genres `["action"]`. -/
theorem recommend_response_constant_witness :
    (recommend_movies ⟨["action"]⟩).getField "response" = some (.arr movies) ∧
    movies.length = 3 :=
  recommend_response_constant ⟨["action"]⟩

/-- C2: for every structurally valid `RecommendationRequest`, the `query`
field of the value returned by `recommend_movies` is exactly the request's
`genres` list encoded as a JSON string array, and decoding it back yields
the `genres` list verbatim: same elements, same order, nothing added,
removed or modified. -/
theorem recommend_query_echoes (request : RecommendationRequest) :
    (recommend_movies request).getField "query" =
      some (.arr (request.genres.map .str)) ∧
    ((recommend_movies request).getField "query").bind Json.asStringList =
      some request.genres := by
  refine ⟨rfl, ?_⟩
  show Json.asStringList (.arr (request.genres.map .str)) = some request.genres
  simp [Json.asStringList, strListOfJson_map_str]

/-- C2 witness at the concrete request with genres `["horror", "comedy"]`. -/
theorem recommend_query_echoes_witness :
    (recommend_movies ⟨["horror", "comedy"]⟩).getField "query" =
      some (.arr ((["horror", "comedy"] : List String).map .str)) ∧
    ((recommend_movies ⟨["horror", "comedy"]⟩).getField "query").bind
      Json.asStringList = some ["horror", "comedy"] :=
  recommend_query_echoes ⟨["horror", "comedy"]⟩

/-- C3: calling `recommend_movies` with empty genres returns an empty
`query` and the fixed `movies` as `response`; calling it with genres
`["horror", "comedy"]` echoes them back with the same fixed `response`;
and the `response` titles are Inception, Dune: Part Two, Interstellar in
exactly that order. -/
theorem recommend_concrete_scenarios :
    recommend_movies ⟨[]⟩ =
      .obj [("query", .arr []), ("response", .arr movies)] ∧
    recommend_movies ⟨["horror", "comedy"]⟩ =
      .obj [ ("query", .arr [.str "horror", .str "comedy"]),
             ("response", .arr movies) ] ∧
    movies.map titleOf =
      [some "Inception", some "Dune: Part Two", some "Interstellar"] :=
  ⟨rfl, rfl, rfl⟩

/-- C4: the recommendations route succeeds if and only if the body has a
`genres` field that is a list of strings; otherwise framework validation
returns a client error and the handler is never reached. -/
theorem handleRecommendations_ok_iff (body : Json) :
    (∃ j, handleRecommendations body = .ok j) ↔
    ∃ gs : List String, body.getField "genres" = some (.arr (gs.map Json.str)) := by
  unfold handleRecommendations parseRecommendationRequest
  cases hg : body.getField "genres" with
  | none => simp [Except.map]
  | some g =>
    simp only [Except.map, Option.some.injEq]
    cases hs : g.asStringList with
    | none =>
      simp
      rintro gs rfl
      have h : (Json.arr (gs.map Json.str)).asStringList = some gs :=
        (asStringList_eq_some_iff _ _).mpr rfl
      rw [h] at hs
      exact Option.noConfusion hs
    | some gs =>
      simp
      exact ⟨gs, (asStringList_eq_some_iff g gs).mp hs⟩

/-- C4 witness: a body with `genres: []` is accepted. -/
theorem handleRecommendations_ok_iff_witness :
    ∃ j, handleRecommendations (.obj [("genres", .arr [])]) = .ok j :=
  (handleRecommendations_ok_iff (.obj [("genres", .arr [])])).mpr ⟨[], rfl⟩

/-- C5: the health check takes no input beyond `Unit`, is a total pure
function (so it never fails and has no side effects), always returns the
same value, and that value is a one-entry record with key `status` and a
string value. -/
theorem root_health_check (u : Unit) :
    root u = root () ∧ ∃ s : String, root u = .obj [("status", .str s)] :=
  ⟨rfl, ⟨"Cinna GraphRAG backend is running!", rfl⟩⟩

/-- C5 witness at the unique concrete input `()`. -/
theorem root_health_check_witness :
    root () = root () ∧ ∃ s : String, root () = .obj [("status", .str s)] :=
  root_health_check ()

/-- C6: for every structurally valid input, every element of the `response`
list returned by `recommend_movies` is a record with exactly the fields
`id` (integer), `title` (string), `overview` (string), `release_date`
(string), `poster_path` (string) and `vote_average` (number). -/
theorem recommend_response_movie_shape (request : RecommendationRequest) :
    (recommend_movies request).getField "response" = some (.arr movies) ∧
    movies.all isMovieRecord = true :=
  ⟨rfl, by decide⟩

/-- C6 witness at the concrete request with empty genres. -/
theorem recommend_response_movie_shape_witness :
    (recommend_movies ⟨[]⟩).getField "response" = some (.arr movies) ∧
    movies.all isMovieRecord = true :=
  recommend_response_movie_shape ⟨[]⟩

/-- C7: both handlers are deterministic and stateless: `recommend_movies`
gives identical outputs on any two requests with equal `genres`, its output
depends only on its input (it is a pure function of the request), and any
two calls of `root` return identical outputs. -/
theorem handlers_deterministic :
    (∀ r₁ r₂ : RecommendationRequest, r₁.genres = r₂.genres →
      recommend_movies r₁ = recommend_movies r₂) ∧
    (∀ u v : Unit, root u = root v) := by
  constructor
  · intro r₁ r₂ h
    cases r₁
    cases r₂
    cases h
    rfl
  · intro u v
    rfl

/-- C7 witness: two calls with the same concrete genres agree, and two
calls of the health check agree. -/
theorem handlers_deterministic_witness :
    recommend_movies ⟨["drama"]⟩ = recommend_movies ⟨["drama"]⟩ ∧
    root () = root () :=
  ⟨handlers_deterministic.1 ⟨["drama"]⟩ ⟨["drama"]⟩ rfl,
   handlers_deterministic.2 () ()⟩

/-- C8: the status string returned by the health check is exactly
`Cinna GraphRAG backend is running!`. -/
theorem root_status_message (u : Unit) :
    root u = .obj [("status", .str "Cinna GraphRAG backend is running!")] :=
  rfl

/-- C8 witness at the unique concrete input `()`. -/
theorem root_status_message_witness :
    root () = .obj [("status", .str "Cinna GraphRAG backend is running!")] :=
  root_status_message ()

/-- C9: the three movies returned by `recommend_movies` carry pairwise
distinct ids 1, 2, 3 in strictly increasing order of position, and pairwise
distinct titles, so the fixed response is duplicate-free. -/
theorem recommend_response_keyed (request : RecommendationRequest) :
    (recommend_movies request).getField "response" = some (.arr movies) ∧
    movies.map idOf = [some 1, some 2, some 3] ∧
    (movies.map idOf).Nodup ∧
    (movies.map titleOf).Nodup :=
  ⟨rfl, rfl, by decide, by decide⟩

/-- C9 witness at the concrete request with genres `["thriller"]`. -/
theorem recommend_response_keyed_witness :
    (recommend_movies ⟨["thriller"]⟩).getField "response" = some (.arr movies) ∧
    movies.map idOf = [some 1, some 2, some 3] ∧
    (movies.map idOf).Nodup ∧
    (movies.map titleOf).Nodup :=
  recommend_response_keyed ⟨["thriller"]⟩

/-- C10: the `release_date` field of every returned movie is a string in
ISO-8601 calendar-date form: ten characters, digits with hyphens at
zero-based indices 4 and 7. -/
theorem recommend_release_dates_iso (request : RecommendationRequest) :
    (recommend_movies request).getField "response" = some (.arr movies) ∧
    (movies.all fun m =>
      match releaseDateOf m with
      | some s => isISODate s
      | none => false) = true :=
  ⟨rfl, by decide⟩

/-- C10 witness at the concrete request with genres `["romance"]`. -/
theorem recommend_release_dates_iso_witness :
    (recommend_movies ⟨["romance"]⟩).getField "response" = some (.arr movies) ∧
    (movies.all fun m =>
      match releaseDateOf m with
      | some s => isISODate s
      | none => false) = true :=
  recommend_release_dates_iso ⟨["romance"]⟩

end Cinna
